import Mathlib

/-
A verification development for the WString buffer core of the cppp-base
library.  The embedding follows src/src/string.cpp and the inline method
bodies of src/include/cppp/string.hpp.  Machine integers (SizeType = size_t)
are modelled as Nat with an explicit modulus 2 ^ 64 where the source performs
size_t arithmetic that can wrap.  The character buffer is modelled at the
byte level, parameterized by w = sizeof(CharType), because the source mixes
unit counts and byte counts (memset).  Nondeterminism of the allocator is
captured by two parameters: allocOk (whether realloc succeeds) and junk
(the contents of freshly acquired, uninitialized memory).
-/

set_option autoImplicit false

/-- One byte of raw memory. -/
abbrev Byte := Nat

/-- The error kinds of the cppp exception taxonomy used by the string core. -/
inductive ErrKind where
  | memoryError
  | valueError
  | indexError
deriving DecidableEq, Repr

/-- The observable fields of cppp::WString: raw_data (none models a null
CharType pointer, some block models an allocated block given as its bytes),
the logical length in code units, and the allocated size in code units.
The default field values mirror the in-class initializers of string.hpp. -/
structure WString where
  raw_data : Option (List Byte) := none
  length : Nat := 0
  allocated_size : Nat := 0
deriving DecidableEq, Repr

/-- Equality on Except results is decidable when it is on both components. -/
instance {e a : Type} [DecidableEq e] [DecidableEq a] : DecidableEq (Except e a) :=
  fun x y =>
    match x, y with
    | Except.ok u, Except.ok v =>
        if h : u = v then Decidable.isTrue (by rw [h])
        else Decidable.isFalse (fun hc => h (Except.ok.inj hc))
    | Except.error u, Except.error v =>
        if h : u = v then Decidable.isTrue (by rw [h])
        else Decidable.isFalse (fun hc => h (Except.error.inj hc))
    | Except.ok _, Except.error _ => Decidable.isFalse (fun hc => Except.noConfusion hc)
    | Except.error _, Except.ok _ => Decidable.isFalse (fun hc => Except.noConfusion hc)

namespace WString

/-- WString::DEFAULT_ALLOCATE_SIZE (string.hpp line 87). -/
def DEFAULT_ALLOCATE_SIZE : Nat := 10

/-- The modulus of size_t arithmetic on the target platform. -/
def SIZE_T_MOD : Nat := 2 ^ 64

/-- WString::npos = (SizeType)(-1) (string.hpp line 63). -/
def npos : Nat := 2 ^ 64 - 1

/-- size_t subtraction a - b (wrapping modulo 2 ^ 64), for a b < 2 ^ 64. -/
def sizeTSub (a b : Nat) : Nat := (a + SIZE_T_MOD - b) % SIZE_T_MOD

/-- C realloc at the byte level: the new block has newBytes bytes, the first
min(old size, newBytes) bytes are preserved from the old block, and the
remaining bytes hold unspecified values supplied by the junk oracle. -/
def reallocBytes (oldBlock : List Byte) (newBytes : Nat) (junk : Nat → Byte) : List Byte :=
  (List.range newBytes).map (fun i => if i < oldBlock.length then oldBlock.getD i 0 else junk i)

/-- C memset(p + start, 0, count) at the byte level over a block. -/
def memsetZero (block : List Byte) (start count : Nat) : List Byte :=
  block.mapIdx (fun i b => if start ≤ i ∧ i < start + count then 0 else b)

/-- The value of new_size computed at src/src/string.cpp line 45:
new_size = (length / DEFAULT_ALLOCATE_SIZE
            + (SizeType)(bool)(length % DEFAULT_ALLOCATE_SIZE)) * DEFAULT_ALLOCATE_SIZE
in size_t arithmetic, hence the modulus. -/
def newSize (length : Nat) : Nat :=
  ((length / DEFAULT_ALLOCATE_SIZE +
    (if length % DEFAULT_ALLOCATE_SIZE = 0 then 0 else 1)) * DEFAULT_ALLOCATE_SIZE)
    % SIZE_T_MOD

/-- WString::_update_buffer_size (src/src/string.cpp lines 42-62).
Line by line: new_size is computed as at line 45 (see newSize); if
new_size == 0 the buffer is freed and the code jumps to end with
new_buffer == nullptr; otherwise realloc is called with
new_size * sizeof(CharType) bytes and a null result throws MemoryError
before any field is assigned (the error value carries the state of the
object at the throw point); at end the three fields are assigned and
memset(_raw_data + _length, 0, _allocated_size - _length) zero-fills
_allocated_size - _length bytes starting at byte offset _length * w. -/
def updateBufferSize (w : Nat) (junk : Nat → Byte) (allocOk : Bool)
    (s : WString) (length : Nat) : Except (ErrKind × WString) WString :=
  let new_size := newSize length
  if new_size = 0 then
    Except.ok { raw_data := none, length := length, allocated_size := new_size }
  else if allocOk then
    let new_buffer := reallocBytes (s.raw_data.getD []) ((new_size * w) % SIZE_T_MOD) junk
    Except.ok { raw_data := some (memsetZero new_buffer (length * w) (sizeTSub new_size length)),
                length := length, allocated_size := new_size }
  else
    Except.error (ErrKind.memoryError, s)

/-- WString::WString() (string.cpp lines 65-68): default member initializers,
then _update_buffer_size(0). -/
def defaultCtor (w : Nat) (junk : Nat → Byte) (allocOk : Bool) :
    Except (ErrKind × WString) WString :=
  updateBufferSize w junk allocOk {} 0

/-- WString::WString(const WString&) (string.cpp lines 70-73): the body only
calls _update_buffer_size(string.length()) on the freshly initialized object;
no data is copied. -/
def copyCtor (w : Nat) (junk : Nat → Byte) (allocOk : Bool) (string : WString) :
    Except (ErrKind × WString) WString :=
  updateBufferSize w junk allocOk {} string.length

/-- WString::WString(const WString&&) (string.cpp lines 75-78): the body only
calls _update_buffer_size(string.length()); the source object is const and is
not modified.  The result pairs the constructed object with the source as it
stands after construction. -/
def moveCtor (w : Nat) (junk : Nat → Byte) (allocOk : Bool) (string : WString) :
    Except (ErrKind × WString) (WString × WString) :=
  (updateBufferSize w junk allocOk {} string.length).map (fun t => (t, string))

/-- WString::c_str (string.hpp lines 282-285): returns _raw_data unchanged. -/
def c_str (s : WString) : Option (List Byte) := s.raw_data

/-- The bytes of code unit u of a block (w bytes starting at offset u * w). -/
def unitBytes (w : Nat) (block : List Byte) (u : Nat) : List Byte :=
  (block.drop (u * w)).take w

/-- Code unit u lies fully inside the block and all of its bytes are zero. -/
def unitIsZero (w : Nat) (block : List Byte) (u : Nat) : Bool :=
  decide ((u + 1) * w ≤ block.length) && (unitBytes w block u).all (fun b => b == 0)

/-- The logical content of a WString: its length together with the bytes of
the code units at offsets [0, length). -/
def content (w : Nat) (s : WString) : Nat × List Byte :=
  (s.length, (s.raw_data.getD []).take (s.length * w))

/-- The code units at offsets [0, length), each as its list of bytes. -/
def logicalUnits (w : Nat) (s : WString) : List (List Byte) :=
  (List.range s.length).map (fun u => unitBytes w (s.raw_data.getD []) u)

/-- Modelled from the spec: the test whether a string ends with a suffix,
needed by removesuffix; the static WString::endswith is declared in
string.hpp but has no definition under src.  Spec: the last suffix-length
units of the string equal the units of the suffix. -/
def endswithSpec (w : Nat) (s suf : WString) : Bool :=
  decide (suf.length ≤ s.length) &&
    decide (logicalUnits w suf = (logicalUnits w s).drop (s.length - suf.length))

/-- Modelled from the spec: WString::operator+ is declared in string.hpp
(line 847) but has no definition under src.  Spec: concatenation; result
length is the sum of the lengths, the units are those of the left operand
followed by those of the right, and storage follows the resize policy with a
zero-filled tail. -/
def opAdd (w : Nat) (s t : WString) : WString :=
  let L := s.length + t.length
  let cap := (L / DEFAULT_ALLOCATE_SIZE +
      (if L % DEFAULT_ALLOCATE_SIZE = 0 then 0 else 1)) * DEFAULT_ALLOCATE_SIZE
  { raw_data := if cap = 0 then none else
      some ((content w s).2 ++ (content w t).2 ++ List.replicate ((cap - L) * w) 0),
    length := L, allocated_size := cap }

/-- Modelled from the spec: the static mutating form WString::removesuffix is
declared in string.hpp (line 645) but has no definition under src.  Spec: if
the string ends with the given non-empty suffix, truncate by the length of
that suffix (routing the length change through the resize primitive);
otherwise no-op. -/
def removesuffixStatic (w : Nat) (junk : Nat → Byte) (allocOk : Bool)
    (s suf : WString) : Except (ErrKind × WString) WString :=
  if suf.length ≠ 0 ∧ endswithSpec w s suf = true then
    updateBufferSize w junk allocOk s (s.length - suf.length)
  else
    Except.ok s

/-- The instance form WString::removesuffix (string.hpp lines 654-659), which
is implemented inline in the header: copy the receiver with the copy
constructor, apply the static form to the copy, return the copy. -/
def removesuffixInst (w : Nat) (junk : Nat → Byte) (allocOk : Bool)
    (s suf : WString) : Except (ErrKind × WString) WString := do
  let result ← copyCtor w junk allocOk s
  removesuffixStatic w junk allocOk result suf

/-- Modelled from the spec: the effective end of the half-open search window
[begin, end); end defaults to npos, a sentinel meaning the string length. -/
def windowEnd (s : List Nat) (e : Nat) : Nat := min e s.length

/-- Modelled from the spec: the substring occurs at offset p. -/
def matchesAt (s sub : List Nat) (p : Nat) : Bool :=
  decide ((s.drop p).take sub.length = sub)

/-- Modelled from the spec: all occurrence offsets of sub in s fully contained
in the window [b, e), in increasing order. -/
def candidates (s sub : List Nat) (b e : Nat) : List Nat :=
  (List.range (windowEnd s e + 1)).filter
    (fun p => decide (b ≤ p) && decide (p + sub.length ≤ windowEnd s e) && matchesAt s sub p)

/-- Modelled from the spec: static WString::find is declared in string.hpp
(line 366) but has no definition under src.  Spec: lowest occurrence offset
in the window, npos when there is none; never raises. -/
def find (s sub : List Nat) (b e : Nat) : Nat :=
  (candidates s sub b e).headD npos

/-- Modelled from the spec: static WString::rfind is declared in string.hpp
(line 712) but has no definition under src.  Spec: highest occurrence offset
in the window, npos when there is none; never raises. -/
def rfind (s sub : List Nat) (b e : Nat) : Nat :=
  (candidates s sub b e).reverse.headD npos

/-- Modelled from the spec: static WString::index is declared in string.hpp
(line 404) but has no definition under src.  Spec: like find, but raises
ValueError when the substring has no occurrence in the window. -/
def index (s sub : List Nat) (b e : Nat) : Except ErrKind Nat :=
  if find s sub b e = npos then Except.error ErrKind.valueError
  else Except.ok (find s sub b e)

/-- Modelled from the spec: static WString::rindex is declared in string.hpp
(line 736) but has no definition under src.  Spec: like rfind, but raises
ValueError when the substring has no occurrence in the window. -/
def rindex (s sub : List Nat) (b e : Nat) : Except ErrKind Nat :=
  if rfind s sub b e = npos then Except.error ErrKind.valueError
  else Except.ok (rfind s sub b e)

/-- The substring has an occurrence fully contained in the window [b, e). -/
def occursInWindow (s sub : List Nat) (b e : Nat) : Prop :=
  ∃ p, b ≤ p ∧ p + sub.length ≤ windowEnd s e ∧ (s.drop p).take sub.length = sub

/-- The instance wrapper WString::find (string.hpp lines 375-378).  Its body
return WString::find((*this), begin, end); resolves to the instance overload
itself (size_t has no conversion to WString, so the four-argument static form
is not viable): the receiver is passed as the substring, the real substring
argument is discarded, and the call recurses forever.  fuel bounds the
recursion depth; none means the call has not returned within the given depth. -/
def find_inst (fuel : Nat) (recv substring : WString) (b e : Nat) : Option Nat :=
  match fuel with
  | 0 => none
  | Nat.succ n => find_inst n recv recv b e

/-- The instance wrapper WString::rfind (string.hpp lines 721-724); same
resolution as find_inst: a self-call that discards the substring. -/
def rfind_inst (fuel : Nat) (recv substring : WString) (b e : Nat) : Option Nat :=
  match fuel with
  | 0 => none
  | Nat.succ n => rfind_inst n recv recv b e

/-- The instance wrapper WString::index (string.hpp lines 414-417); same
resolution: a self-call that discards the substring. -/
def index_inst (fuel : Nat) (recv substring : WString) (b e : Nat) : Option Nat :=
  match fuel with
  | 0 => none
  | Nat.succ n => index_inst n recv recv b e

/-- The instance wrapper WString::rindex (string.hpp lines 746-749); same
resolution: a self-call that discards the substring. -/
def rindex_inst (fuel : Nat) (recv substring : WString) (b e : Nat) : Option Nat :=
  match fuel with
  | 0 => none
  | Nat.succ n => rindex_inst n recv recv b e

/-- The instance wrapper WString::startswith (string.hpp lines 788-791); same
resolution: a self-call that discards the prefix argument. -/
def startswith_inst (fuel : Nat) (recv pre : WString) (b e : Nat) : Option Bool :=
  match fuel with
  | 0 => none
  | Nat.succ n => startswith_inst n recv recv b e

/-- A concrete one-unit string holding the unit value 65, laid out for
w = 4 bytes per unit with capacity 10 and a zero-filled tail. -/
def strA : WString := ⟨some (65 :: List.replicate 39 0), 1, 10⟩

/-- A concrete one-unit string holding the unit value 66, laid out for
w = 4 bytes per unit with capacity 10 and a zero-filled tail. -/
def strB : WString := ⟨some (66 :: List.replicate 39 0), 1, 10⟩

end WString

namespace WString

theorem newSize_lt_of_le (L : Nat) (hL : L ≤ 2 ^ 64 - 6) :
    (L / 10 + (if L % 10 = 0 then 0 else 1)) * 10 < 2 ^ 64 := by
  have hdm := Nat.div_add_mod L 10
  split <;> omega

theorem newSize_eq (L : Nat) (hL : L ≤ 2 ^ 64 - 6) :
    newSize L = (L / 10 + (if L % 10 = 0 then 0 else 1)) * 10 := by
  unfold newSize DEFAULT_ALLOCATE_SIZE SIZE_T_MOD
  exact Nat.mod_eq_of_lt (newSize_lt_of_le L hL)

theorem newSize_pos (L : Nat) (h1 : 0 < L) (h2 : L < 2 ^ 64) : newSize L ≠ 0 := by
  have hdm := Nat.div_add_mod L 10
  have h10 : (10 : Nat) ∣ (L / 10 + (if L % 10 = 0 then 0 else 1)) * 10 :=
    ⟨L / 10 + (if L % 10 = 0 then 0 else 1), by ring⟩
  have hge : 10 ≤ (L / 10 + (if L % 10 = 0 then 0 else 1)) * 10 := by split <;> omega
  have hle : (L / 10 + (if L % 10 = 0 then 0 else 1)) * 10 ≤ 2 ^ 64 + 8 := by split <;> omega
  unfold newSize DEFAULT_ALLOCATE_SIZE SIZE_T_MOD
  rcases Nat.lt_or_ge ((L / 10 + (if L % 10 = 0 then 0 else 1)) * 10) (2 ^ 64) with hlt | hgee
  · rw [Nat.mod_eq_of_lt hlt]
    omega
  · rw [Nat.mod_eq_sub_mod hgee, Nat.mod_eq_of_lt (by omega)]
    intro h0
    have hX : (L / 10 + (if L % 10 = 0 then 0 else 1)) * 10 = 2 ^ 64 := by omega
    rw [hX] at h10
    have hnd : ¬ (10 : Nat) ∣ 2 ^ 64 := by decide
    exact hnd h10

theorem newSize_facts (L : Nat) (hL : L ≤ 2 ^ 64 - 6) :
    newSize L = (L / 10 + (if L % 10 = 0 then 0 else 1)) * 10 ∧
    newSize L % 10 = 0 ∧ L ≤ newSize L ∧
    (∀ m, m % 10 = 0 → L ≤ m → newSize L ≤ m) ∧
    (L + 1 ≤ newSize L ↔ L % 10 ≠ 0) := by
  have hns := newSize_eq L hL
  have hdm := Nat.div_add_mod L 10
  rw [hns]
  refine ⟨rfl, ?_, ?_, ?_, ?_⟩
  · split <;> omega
  · split <;> omega
  · intro m hm hLm; split <;> omega
  · split <;> omega

theorem updateBufferSize_ok_fields (w : Nat) (junk : Nat → Byte) (allocOk : Bool)
    (s : WString) (L : Nat) (t : WString)
    (h : updateBufferSize w junk allocOk s L = Except.ok t) :
    t.length = L ∧ t.allocated_size = newSize L ∧ (newSize L = 0 → t.raw_data = none) := by
  simp only [updateBufferSize] at h
  split at h
  next h0 =>
    injection h with h
    subst h
    exact ⟨rfl, rfl, fun _ => rfl⟩
  next h0 =>
    split at h
    next =>
      injection h with h
      subst h
      exact ⟨rfl, rfl, fun hz => absurd hz h0⟩
    next => exact Except.noConfusion h

theorem updateBufferSize_error_fields (w : Nat) (junk : Nat → Byte) (allocOk : Bool)
    (s : WString) (L : Nat) (k : ErrKind) (s2 : WString)
    (h : updateBufferSize w junk allocOk s L = Except.error (k, s2)) :
    k = ErrKind.memoryError ∧ s2 = s := by
  simp only [updateBufferSize] at h
  split at h
  next => exact Except.noConfusion h
  next =>
    split at h
    next => exact Except.noConfusion h
    next =>
      injection h with h
      injection h with h1 h2
      exact ⟨h1.symm, h2.symm⟩

/-- C1: the copy constructor of string.cpp lines 70-73 does not duplicate the
storage of its source: for the one-unit source strA (unit value 65), with
sizeof(CharType) = 4, a fresh-memory oracle returning byte 1 and a successful
realloc, the copy has the same length 1 but its single code unit consists of
uninitialized bytes [1, 1, 1, 1], not the unit of the source. -/
theorem C1_copy_constructor_copies_nothing :
    (copyCtor 4 (fun _ => 1) true strA).toOption.map (content 4)
      = some (1, [1, 1, 1, 1]) ∧
    content 4 strA = (1, [65, 0, 0, 0]) ∧
    ((1, [1, 1, 1, 1]) : Nat × List Byte) ≠ (1, [65, 0, 0, 0]) := by decide

/-- C5: the move constructor of string.cpp lines 75-78 transfers nothing: for
the one-unit source strA it allocates a fresh uninitialized buffer (content
bytes [1, 1, 1, 1] under the junk oracle 1) instead of taking over the source
buffer, and the source keeps its buffer and its length 1 instead of being
left empty. -/
theorem C5_move_constructor_moves_nothing :
    (moveCtor 4 (fun _ => 1) true strA).toOption.map
        (fun p => (p.2, p.2.length, (content 4 p.1).2))
      = some (strA, 1, [1, 1, 1, 1]) ∧
    strA.length ≠ 0 := by decide

/-- C3: after a successful resize the tail [L, capacity) is not zero-filled
and the terminator is not guaranteed.  At requested length 10 the capacity is
also 10, so there is no code unit at offset length at all (the unit-is-zero
test fails on bounds).  At requested length 7 the memset at string.cpp line
61 counts capacity - length = 3 bytes instead of 3 units, so unit 7 keeps an
uninitialized byte and is not zero either. -/
theorem C3_tail_not_zero_filled :
    ((updateBufferSize 4 (fun _ => 1) true { raw_data := none, length := 0, allocated_size := 0 } 10).toOption.map
        (fun t => (t.length, t.allocated_size, unitIsZero 4 (t.raw_data.getD []) t.length))
      = some (10, 10, false)) ∧
    ((updateBufferSize 4 (fun _ => 1) true { raw_data := none, length := 0, allocated_size := 0 } 7).toOption.map
        (fun t => unitIsZero 4 (t.raw_data.getD []) 7)
      = some false) := by decide

/-- C2 fails as stated: at requested length 10 the computed capacity is 10,
which is not the smallest multiple of 10 that is at least 11 (that would be
20), and capacity >= length + 1 does not hold. -/
theorem C2_counterexample_length_ten :
    (updateBufferSize 4 (fun _ => 1) true { raw_data := none, length := 0, allocated_size := 0 } 10).toOption.map
        (fun t => (t.allocated_size, decide (t.length + 1 ≤ t.allocated_size)))
      = some (10, false) ∧ (10 : Nat) ≠ 20 := by decide

/-- C2 amended: when the resize primitive succeeds it sets the capacity to
the smallest multiple of the growth quantum 10 that is at least L (not
L + 1), provided L is small enough that the size_t computation does not wrap
(L ≤ 2^64 - 6); hence capacity ≥ length always, and capacity ≥ length + 1
exactly when L is not a multiple of 10. -/
theorem C2_amended_capacity (w : Nat) (junk : Nat → Byte) (allocOk : Bool)
    (s : WString) (L : Nat) (t : WString) (hL : L ≤ 2 ^ 64 - 6)
    (h : updateBufferSize w junk allocOk s L = Except.ok t) :
    t.length = L ∧
    t.allocated_size = (L / 10 + (if L % 10 = 0 then 0 else 1)) * 10 ∧
    t.allocated_size % 10 = 0 ∧
    L ≤ t.allocated_size ∧
    (∀ m, m % 10 = 0 → L ≤ m → t.allocated_size ≤ m) ∧
    (t.length + 1 ≤ t.allocated_size ↔ L % 10 ≠ 0) := by
  obtain ⟨hlen, halloc, -⟩ := updateBufferSize_ok_fields w junk allocOk s L t h
  obtain ⟨h1, h2, h3, h4, h5⟩ := newSize_facts L hL
  rw [hlen, halloc]
  exact ⟨rfl, h1, h2, h3, h4, h5⟩

theorem C2_amended_capacity_witness :
    (3 : Nat) ≤ 2 ^ 64 - 6 ∧
    updateBufferSize 1 (fun _ => 0) true { raw_data := none, length := 0, allocated_size := 0 } 3
      = Except.ok ⟨some (List.replicate 10 0), 3, 10⟩ ∧
    (⟨some (List.replicate 10 0), 3, 10⟩ : WString).allocated_size
      = (3 / 10 + (if 3 % 10 = 0 then 0 else 1)) * 10 :=
  ⟨by decide, by decide,
   (C2_amended_capacity 1 (fun _ => 0) true { raw_data := none, length := 0, allocated_size := 0 } 3
      ⟨some (List.replicate 10 0), 3, 10⟩ (by decide) (by decide)).2.1⟩

/-- C4: when realloc fails inside the resize primitive (allocOk = false) and
the computed capacity is nonzero (0 < L, with L in size_t range), the
operation raises MemoryError and the error carries the state of the object
exactly as it was before the call: no field has been assigned at the throw
point at string.cpp line 54. -/
theorem C4_realloc_failure_preserves_state (w : Nat) (junk : Nat → Byte)
    (s : WString) (L : Nat) (h1 : 0 < L) (h2 : L < 2 ^ 64) :
    updateBufferSize w junk false s L = Except.error (ErrKind.memoryError, s) := by
  have hne := newSize_pos L h1 h2
  simp [updateBufferSize, hne]

theorem C4_realloc_failure_preserves_state_witness :
    (0 : Nat) < 5 ∧ (5 : Nat) < 2 ^ 64 ∧
    updateBufferSize 1 (fun _ => 0) false { raw_data := none, length := 0, allocated_size := 0 } 5
      = Except.error (ErrKind.memoryError, { raw_data := none, length := 0, allocated_size := 0 }) :=
  ⟨by decide, by decide,
   C4_realloc_failure_preserves_state 1 (fun _ => 0)
     { raw_data := none, length := 0, allocated_size := 0 } 5 (by decide) (by decide)⟩

/-- C6 fails as stated: at requested length 2^64 - 1 the size_t computation
of new_size wraps around and produces capacity 4, which is not a multiple of
the growth quantum 10. -/
theorem C6_counterexample_overflow :
    (updateBufferSize 4 (fun _ => 1) true { raw_data := none, length := 0, allocated_size := 0 } (2 ^ 64 - 1)).toOption.map
        (fun t => (t.allocated_size, decide (t.allocated_size % 10 = 0)))
      = some (4, false) := by decide

/-- C6 amended: for requested lengths that do not overflow the size_t
computation (L ≤ 2^64 - 6), every successful resize leaves the capacity a
multiple of the growth quantum 10; whenever the computed capacity is zero
(L = 0) the buffer is released entirely, leaving _raw_data null and
_allocated_size 0; and a failed resize leaves the state unchanged. -/
theorem C6_amended_growth_invariant (w : Nat) (junk : Nat → Byte) (allocOk : Bool)
    (s : WString) (L : Nat) :
    (∀ t, updateBufferSize w junk allocOk s L = Except.ok t →
        (L ≤ 2 ^ 64 - 6 → t.allocated_size % 10 = 0) ∧
        (L = 0 → t.raw_data = none ∧ t.allocated_size = 0)) ∧
    (∀ k s2, updateBufferSize w junk allocOk s L = Except.error (k, s2) → s2 = s) := by
  constructor
  · intro t h
    obtain ⟨hlen, halloc, hzero⟩ := updateBufferSize_ok_fields w junk allocOk s L t h
    constructor
    · intro hL
      obtain ⟨-, h2, -, -, -⟩ := newSize_facts L hL
      rw [halloc]; exact h2
    · intro h0
      subst h0
      have hz : newSize 0 = 0 := by decide
      refine ⟨hzero hz, ?_⟩
      rw [halloc, hz]
  · intro k s2 h
    exact (updateBufferSize_error_fields w junk allocOk s L k s2 h).2

theorem C6_amended_growth_invariant_witness :
    updateBufferSize 1 (fun _ => 0) true { raw_data := none, length := 0, allocated_size := 0 } 0
      = Except.ok { raw_data := none, length := 0, allocated_size := 0 } ∧
    ({ raw_data := none, length := 0, allocated_size := 0 } : WString).allocated_size % 10 = 0 ∧
    ({ raw_data := none, length := 0, allocated_size := 0 } : WString).raw_data = none :=
  ⟨rfl,
   ((C6_amended_growth_invariant 1 (fun _ => 0) true
       { raw_data := none, length := 0, allocated_size := 0 } 0).1
     { raw_data := none, length := 0, allocated_size := 0 } rfl).1 (by decide),
   (((C6_amended_growth_invariant 1 (fun _ => 0) true
       { raw_data := none, length := 0, allocated_size := 0 } 0).1
     { raw_data := none, length := 0, allocated_size := 0 } rfl).2 rfl).1⟩

/-- C9: the append-then-removesuffix round trip fails on the code: for
s = strA (one unit 65) and suf = strB (one unit 66), the concatenation has
the units of both, but the instance removesuffix first copies it with the
broken copy constructor of string.cpp lines 70-73, obtaining a length-2
string of uninitialized bytes; that junk does not end with suf, so nothing
is removed, and the result (length 2, junk content) differs from s. -/
theorem C9_append_removesuffix_roundtrip_fails :
    (removesuffixInst 4 (fun _ => 1) true (opAdd 4 strA strB) strB).toOption.map (content 4)
      = some (2, [1, 1, 1, 1, 1, 1, 1, 1]) ∧
    content 4 strA = (1, [65, 0, 0, 0]) ∧
    ((2, [1, 1, 1, 1, 1, 1, 1, 1]) : Nat × List Byte) ≠ (1, [65, 0, 0, 0]) := by decide

/-- C10: resizing to length 0 (which is what the default constructor does,
and the only way any reachable WString gets length 0, since every
length-changing operation routes through the resize primitive) always
succeeds and leaves capacity 0 with an unallocated (null) buffer, and c_str
then returns the null pointer. -/
theorem C10_zero_length_null_buffer (w : Nat) (junk : Nat → Byte) (allocOk : Bool)
    (s : WString) :
    updateBufferSize w junk allocOk s 0
      = Except.ok { raw_data := none, length := 0, allocated_size := 0 } ∧
    c_str { raw_data := none, length := 0, allocated_size := 0 } = none ∧
    defaultCtor w junk allocOk
      = Except.ok { raw_data := none, length := 0, allocated_size := 0 } := by
  refine ⟨rfl, rfl, rfl⟩

theorem mem_candidates {s sub : List Nat} {b e p : Nat} :
    p ∈ candidates s sub b e ↔
      b ≤ p ∧ p + sub.length ≤ windowEnd s e ∧ (s.drop p).take sub.length = sub := by
  constructor
  · intro hp
    have h2 := (List.mem_filter.1 hp).2
    simp only [Bool.and_eq_true, decide_eq_true_eq, matchesAt] at h2
    exact ⟨h2.1.1, h2.1.2, h2.2⟩
  · intro ⟨h1, h2, h3⟩
    apply List.mem_filter.2
    refine ⟨List.mem_range.2 (by omega), ?_⟩
    simp only [Bool.and_eq_true, decide_eq_true_eq, matchesAt]
    exact ⟨⟨h1, h2⟩, h3⟩

theorem candidates_bounded {s sub : List Nat} {b e : Nat} (hs : s.length < npos) :
    ∀ p ∈ candidates s sub b e, p < npos := by
  intro p hp
  have h1 := List.mem_range.1 (List.mem_filter.1 hp).1
  have h2 : windowEnd s e ≤ s.length := Nat.min_le_right e s.length
  omega

theorem headD_eq_npos_iff {l : List Nat} (hl : ∀ p ∈ l, p < npos) :
    l.headD npos = npos ↔ l = [] := by
  cases l with
  | nil => simp
  | cons a t =>
    simp only [List.headD_cons]
    constructor
    · intro h
      exact absurd h (Nat.ne_of_lt (hl a (List.mem_cons_self a t)))
    · intro h
      exact List.noConfusion h

theorem occursInWindow_iff_candidates_ne_nil {s sub : List Nat} {b e : Nat} :
    occursInWindow s sub b e ↔ candidates s sub b e ≠ [] := by
  constructor
  · rintro ⟨p, h1, h2, h3⟩ hnil
    have hp : p ∈ candidates s sub b e := mem_candidates.2 ⟨h1, h2, h3⟩
    rw [hnil] at hp
    exact List.not_mem_nil p hp
  · intro hne
    cases hc : candidates s sub b e with
    | nil => exact absurd hc hne
    | cons a t =>
      have ha : a ∈ candidates s sub b e := by
        rw [hc]
        exact List.mem_cons_self a t
      obtain ⟨h1, h2, h3⟩ := mem_candidates.1 ha
      exact ⟨a, h1, h2, h3⟩

theorem find_eq_npos_iff {s sub : List Nat} {b e : Nat} (hs : s.length < npos) :
    find s sub b e = npos ↔ ¬ occursInWindow s sub b e := by
  rw [occursInWindow_iff_candidates_ne_nil, not_not]
  unfold find
  exact headD_eq_npos_iff (candidates_bounded hs)

theorem rfind_eq_npos_iff {s sub : List Nat} {b e : Nat} (hs : s.length < npos) :
    rfind s sub b e = npos ↔ ¬ occursInWindow s sub b e := by
  rw [occursInWindow_iff_candidates_ne_nil, not_not]
  unfold rfind
  have hrev : ∀ p ∈ (candidates s sub b e).reverse, p < npos := by
    intro p hp
    exact candidates_bounded hs p (List.mem_reverse.1 hp)
  rw [headD_eq_npos_iff hrev]
  exact List.reverse_eq_nil_iff

/-- C7: over the spec-modelled search family (the static forms are declared
in string.hpp but have no definition under src), index and rindex fail with
ValueError exactly when the substring has no occurrence fully contained in
the search window, while find and rfind are total functions into offsets
(they never raise) and return the npos sentinel exactly on no occurrence. -/
theorem C7_index_raises_iff_absent (s sub : List Nat) (b e : Nat) (hs : s.length < npos) :
    (find s sub b e = npos ↔ ¬ occursInWindow s sub b e) ∧
    (rfind s sub b e = npos ↔ ¬ occursInWindow s sub b e) ∧
    (index s sub b e = Except.error ErrKind.valueError ↔ ¬ occursInWindow s sub b e) ∧
    (rindex s sub b e = Except.error ErrKind.valueError ↔ ¬ occursInWindow s sub b e) := by
  have hfind := @find_eq_npos_iff s sub b e hs
  have hrfind := @rfind_eq_npos_iff s sub b e hs
  refine ⟨hfind, hrfind, ?_, ?_⟩
  · constructor
    · intro h
      unfold index at h
      split at h
      next hf => exact hfind.1 hf
      next hf => exact Except.noConfusion h
    · intro h
      unfold index
      rw [if_pos (hfind.2 h)]
  · constructor
    · intro h
      unfold rindex at h
      split at h
      next hf => exact hrfind.1 hf
      next hf => exact Except.noConfusion h
    · intro h
      unfold rindex
      rw [if_pos (hrfind.2 h)]

theorem C7_index_raises_iff_absent_witness :
    ([5] : List Nat).length < npos ∧
    index [5] [6] 0 npos = Except.error ErrKind.valueError :=
  ⟨by decide,
   ((C7_index_raises_iff_absent [5] [6] 0 npos (by decide)).2.2.1).mpr (by
      rintro ⟨p, h1, h2, h3⟩
      have hw : windowEnd [5] npos = 1 := by decide
      have hlen : ([6] : List Nat).length = 1 := rfl
      rw [hw, hlen] at h2
      have hp : p = 0 := by omega
      subst hp
      exact absurd h3 (by decide))⟩

theorem find_inst_eq_none (fuel : Nat) :
    ∀ (recv substring : WString) (b e : Nat), find_inst fuel recv substring b e = none := by
  induction fuel with
  | zero => intro recv substring b e; rfl
  | succ n ih => intro recv substring b e; exact ih recv recv b e

theorem rfind_inst_eq_none (fuel : Nat) :
    ∀ (recv substring : WString) (b e : Nat), rfind_inst fuel recv substring b e = none := by
  induction fuel with
  | zero => intro recv substring b e; rfl
  | succ n ih => intro recv substring b e; exact ih recv recv b e

theorem index_inst_eq_none (fuel : Nat) :
    ∀ (recv substring : WString) (b e : Nat), index_inst fuel recv substring b e = none := by
  induction fuel with
  | zero => intro recv substring b e; rfl
  | succ n ih => intro recv substring b e; exact ih recv recv b e

theorem rindex_inst_eq_none (fuel : Nat) :
    ∀ (recv substring : WString) (b e : Nat), rindex_inst fuel recv substring b e = none := by
  induction fuel with
  | zero => intro recv substring b e; rfl
  | succ n ih => intro recv substring b e; exact ih recv recv b e

theorem startswith_inst_eq_none (fuel : Nat) :
    ∀ (recv pre : WString) (b e : Nat), startswith_inst fuel recv pre b e = none := by
  induction fuel with
  | zero => intro recv pre b e; rfl
  | succ n ih => intro recv pre b e; exact ih recv recv b e

/-- C8: none of the five instance search wrappers (find, rfind, index,
rindex, startswith of string.hpp) ever produces a result, at any recursion
depth, on any receiver, substring and window: each body delegates by a
self-call that passes the receiver in place of the substring, so the call
never reaches the static form and never returns. -/
theorem C8_instance_wrappers_never_return :
    (∀ (fuel : Nat) (recv substring : WString) (b e : Nat),
        find_inst fuel recv substring b e = none) ∧
    (∀ (fuel : Nat) (recv substring : WString) (b e : Nat),
        rfind_inst fuel recv substring b e = none) ∧
    (∀ (fuel : Nat) (recv substring : WString) (b e : Nat),
        index_inst fuel recv substring b e = none) ∧
    (∀ (fuel : Nat) (recv substring : WString) (b e : Nat),
        rindex_inst fuel recv substring b e = none) ∧
    (∀ (fuel : Nat) (recv pre : WString) (b e : Nat),
        startswith_inst fuel recv pre b e = none) :=
  ⟨find_inst_eq_none, rfind_inst_eq_none, index_inst_eq_none,
   rindex_inst_eq_none, startswith_inst_eq_none⟩

end WString
